import Mathlib

/-!
Shallow embedding of `timesketch/lib/llms/providers/lmstudio.py`, the
LM Studio LLM provider adapter, together with proofs of the specified
properties of its constructor, header/payload construction, HTTP request
shape, response interpretation and module-load registration.

The adapter issues one HTTP POST per `generate` call; we model the HTTP
exchange by passing the (simulated) server as a function from the request
to a response, and the external JSON decoder (`resp.json()`) as a function
from the body text to either a parsed value or a parse failure.
-/

namespace LMStudio

/-- JSON values, the structured data produced by the response-body parser. -/
inductive Json where
  | null
  | bool (b : Bool)
  | num (n : Int)
  | str (s : String)
  | arr (elems : List Json)
  | obj (fields : List (String × Json))

/-- Stand-in for the Python `dict` passed as `response_schema`; its content is
never inspected by the code, only its truthiness (a Python dict is falsy iff
empty), so an association list suffices. -/
abbrev Schema := List (String × String)

/-- The configuration mapping, restricted to the three recognized keys.
A field is `none` when the key is absent from the mapping (Python
`dict.get` returns `None`).

Modelled from the spec: the provider base class `interface.LLMProvider`
(its module is not part of the sources) stores the supplied configuration
mapping unchanged in `self.config`; the spec describes configuration as
"an immutable mapping" supplied programmatically. -/
structure Config where
  server_url : Option String
  model : Option String
  api_key : Option String
  deriving Repr, DecidableEq

/-- The error kind raised by the constructor (`ValueError` in the source,
`ConfigurationError` in the design document). -/
inductive ConfigurationError where
  | missingServerUrl
  deriving Repr, DecidableEq

/-- The adapter state after a successful construction: the stored
configuration plus the three fields the constructor assigns
(`self._server_url`, `self._model`, `self._api_key`).  `server_url` is kept
as a plain string because construction only succeeds when the configured
value is a non-empty string. -/
structure LMStudioProvider where
  config : Config
  server_url : String
  model : Option String
  api_key : Option String
  deriving Repr, DecidableEq

/-- `LMStudioProvider.__init__`: reads `server_url`, `model` and `api_key`
from the configuration and raises when `server_url` is falsy, i.e. absent
(`None`) or the empty string (`if not self._server_url`). -/
def LMStudioProvider.init (config : Config) : Except ConfigurationError LMStudioProvider :=
  match config.server_url with
  | some s =>
      if s = "" then .error ConfigurationError.missingServerUrl
      else .ok ⟨config, s, config.model, config.api_key⟩
  | none => .error ConfigurationError.missingServerUrl

/-- `LMStudioProvider._headers`: always `Content-Type: application/json`,
plus `Authorization: Bearer <api_key>` when the api key is truthy
(`if self._api_key`, so present and non-empty). -/
def LMStudioProvider.headers (self : LMStudioProvider) : List (String × String) :=
  [("Content-Type", "application/json")] ++
    (match self.api_key with
     | some k => if k = "" then [] else [("Authorization", "Bearer " ++ k)]
     | none => [])

/-- The JSON request body built by `generate`: always the prompt, plus the
model identifier when it is truthy (`if self._model`). -/
def LMStudioProvider.payload (self : LMStudioProvider) (prompt : String) :
    List (String × String) :=
  [("prompt", prompt)] ++
    (match self.model with
     | some m => if m = "" then [] else [("model", m)]
     | none => [])

/-- Python `str.rstrip("/")`: removes every trailing `'/'` character. -/
def rstripSlash (s : String) : String :=
  String.mk ((s.data.reverse.dropWhile (fun c => c = '/')).reverse)

/-- The HTTP request issued by `requests.post(url, json=payload,
headers=..., timeout=60)`. -/
structure HttpRequest where
  method : String
  url : String
  headers : List (String × String)
  jsonBody : List (String × String)
  timeout : Nat
  deriving Repr, DecidableEq

/-- An HTTP response as seen by the adapter: status code and body text. -/
structure HttpResponse where
  status : Nat
  body : String
  deriving Repr, DecidableEq

/-- `requests.Response.raise_for_status` raises `HTTPError` exactly for the
client-error and server-error status codes, i.e. 400 ≤ status < 600;
informational, success and redirect codes do not raise. -/
def isHttpError (status : Nat) : Bool :=
  400 ≤ status && status < 600

/-- The single request each `generate` call sends: POST to the configured
base address with trailing slashes stripped, concatenated with
`"/generate"`, with the adapter headers and the JSON payload, timeout 60. -/
def LMStudioProvider.request (self : LMStudioProvider) (prompt : String) : HttpRequest :=
  ⟨"POST", rstripSlash self.server_url ++ "/generate", self.headers, self.payload prompt, 60⟩

/-- The error kinds `generate` can raise: the re-raised `HTTPError`
(`TransportError` in the design document) and the `ValueError` wrapping a
JSON parse failure (`DecodingError`). -/
inductive GenError where
  | transportError (status : Nat)
  | decodingError (cause : String)
  deriving Repr, DecidableEq

/-- The successful result of `generate`: raw body text or parsed JSON. -/
inductive GenResult where
  | text (s : String)
  | structured (j : Json)

/-- Python truthiness of the `response_schema` argument: falsy when `None`
or the empty dict (`if response_schema:`). -/
def truthySchema : Option Schema → Bool
  | none => false
  | some d => !d.isEmpty

/-- Everything observable about one `generate` call: the requests it sent
(always exactly one), whether `logger.exception` ran, the returned value or
raised error, and the adapter state after the call. -/
structure GenOutcome where
  requestsSent : List HttpRequest
  logged : Bool
  result : Except GenError GenResult
  self : LMStudioProvider

/-- `LMStudioProvider.generate`: builds the request, sends it, re-raises
(after logging) on an HTTP error status, then either parses the body as
JSON (when `response_schema` is truthy) or returns the body text.  The
external collaborators are passed in: `server` maps the issued request to
the response, and `parse` is the JSON decoder used by `resp.json()`. -/
def LMStudioProvider.generate (self : LMStudioProvider) (prompt : String)
    (response_schema : Option Schema)
    (server : HttpRequest → HttpResponse)
    (parse : String → Except String Json) : GenOutcome :=
  let req := self.request prompt
  let resp := server req
  if isHttpError resp.status then
    ⟨[req], true, .error (.transportError resp.status), self⟩
  else if truthySchema response_schema then
    match parse resp.body with
    | .ok j => ⟨[req], false, .ok (.structured j), self⟩
    | .error e => ⟨[req], false, .error (.decodingError e), self⟩
  else
    ⟨[req], false, .ok (.text resp.body), self⟩

/-- The module-level `try: manager.LLMManager.register_provider(...) except
Exception: pass` block: whatever the registry call does — return normally
(`.ok`) or raise (`.error`) — the exception is swallowed and module import
completes normally. -/
def moduleRegistration (registerResult : Except String Unit) : Except String Unit :=
  match registerResult with
  | .ok _ => .ok ()
  | .error _ => .ok ()

/-- A sample validly-constructed adapter used for concrete evaluations. -/
def demoConfig : Config := ⟨some "http://localhost:1234/", some "m1", some "secret"⟩

/-- The adapter built from `demoConfig`. -/
def demoProvider : LMStudioProvider :=
  ⟨demoConfig, "http://localhost:1234/", some "m1", some "secret"⟩

/-- A concrete JSON decoder used to instantiate the external `resp.json()`
collaborator on sample inputs: it decodes the body `\x7b"a": 1\x7d` and
rejects everything else with the CPython parse message. -/
def demoParse : String → Except String Json := fun s =>
  if s = "\x7b\"a\": 1\x7d" then .ok (Json.obj [("a", Json.num 1)])
  else .error "Expecting value"

/-- An adapter whose configured `api_key` is the empty string. -/
def emptyKeyProvider : LMStudioProvider :=
  ⟨⟨some "http://lm", none, some ""⟩, "http://lm", none, some ""⟩

/-- An adapter whose configured `model` is the empty string. -/
def emptyModelProvider : LMStudioProvider :=
  ⟨⟨some "http://lm", some "", none⟩, "http://lm", some "", none⟩

/-- An adapter whose configured `model` and `api_key` are both the empty
string. -/
def emptyBothProvider : LMStudioProvider :=
  ⟨⟨some "http://lm", some "", some ""⟩, "http://lm", some "", some ""⟩

/-- `isHttpError` unfolded to a proposition. -/
theorem isHttpError_iff (s : Nat) : isHttpError s = true ↔ (400 ≤ s ∧ s < 600) := by
  simp [isHttpError]

/-- C1: a configuration whose `server_url` is absent or empty makes
construction fail with the configuration error; a non-empty `server_url`
makes construction succeed, storing `server_url`, `model` and `api_key`. -/
theorem init_requires_server_url (config : Config) :
    ((config.server_url = none ∨ config.server_url = some "") →
      LMStudioProvider.init config = .error ConfigurationError.missingServerUrl) ∧
    (∀ s, config.server_url = some s → s ≠ "" →
      LMStudioProvider.init config = .ok ⟨config, s, config.model, config.api_key⟩) := by
  constructor
  · rintro (h | h) <;> simp [LMStudioProvider.init, h]
  · intro s hs hne
    simp [LMStudioProvider.init, hs, hne]

/-- Witness for C1 at a concrete configuration. -/
theorem init_requires_server_url_witness :
    LMStudioProvider.init ⟨some "http://lm", some "m1", some "k"⟩ =
      .ok ⟨⟨some "http://lm", some "m1", some "k"⟩, "http://lm", some "m1", some "k"⟩ :=
  (init_requires_server_url ⟨some "http://lm", some "m1", some "k"⟩).2
    "http://lm" rfl (by decide)

/-- C2 counterexample: at status 301 — not in the 2xx range — `generate`
does not raise a transport error and emits no log entry; it proceeds to
body interpretation and returns the body text, contradicting the claim
that every non-2xx status raises. -/
theorem generate_status_counterexample :
    (demoProvider.generate "p" none (fun _ => ⟨301, "moved"⟩) demoParse).logged = false ∧
    (demoProvider.generate "p" none (fun _ => ⟨301, "moved"⟩) demoParse).result
        = .ok (.text "moved") ∧
    ¬ (demoProvider.generate "p" none (fun _ => ⟨301, "moved"⟩) demoParse).result
        = .error (.transportError 301) := by
  refine ⟨rfl, rfl, fun h => ?_⟩
  exact Except.noConfusion h

/-- C2 amended: `generate` raises a `TransportError` — after emitting a
diagnostic log entry — if and only if the response status code is in the
4xx/5xx range (400 ≤ status < 600); every other status, including every
2xx, proceeds to body interpretation without raising a transport error or
logging. -/
theorem generate_transport_spec (p : LMStudioProvider) (prompt : String)
    (schema : Option Schema) (server : HttpRequest → HttpResponse)
    (parse : String → Except String Json) :
    ((400 ≤ (server (p.request prompt)).status ∧ (server (p.request prompt)).status < 600) →
      (p.generate prompt schema server parse).result
          = .error (.transportError (server (p.request prompt)).status) ∧
      (p.generate prompt schema server parse).logged = true) ∧
    (¬ (400 ≤ (server (p.request prompt)).status ∧ (server (p.request prompt)).status < 600) →
      (p.generate prompt schema server parse).logged = false ∧
      ∀ s, (p.generate prompt schema server parse).result ≠ .error (.transportError s)) := by
  constructor
  · intro h
    have hb : isHttpError (server (p.request prompt)).status = true :=
      (isHttpError_iff _).mpr h
    constructor <;> simp [LMStudioProvider.generate, hb]
  · intro h
    have hb : isHttpError (server (p.request prompt)).status = false := by
      rcases Bool.eq_false_or_eq_true (isHttpError (server (p.request prompt)).status) with
        ht | hf
      · exact absurd ((isHttpError_iff _).mp ht) h
      · exact hf
    constructor
    · cases hts : truthySchema schema <;>
        cases hp : parse (server (p.request prompt)).body <;>
        simp [LMStudioProvider.generate, hb, hts, hp]
    · intro s
      cases hts : truthySchema schema <;>
        cases hp : parse (server (p.request prompt)).body <;>
        simp [LMStudioProvider.generate, hb, hts, hp]

/-- Witness for the amended C2 at a simulated status-500 server: the call
raises the transport error and logs. -/
theorem generate_transport_spec_witness :
    (demoProvider.generate "p" none (fun _ => ⟨500, "oops"⟩) demoParse).result
        = .error (.transportError 500) ∧
    (demoProvider.generate "p" none (fun _ => ⟨500, "oops"⟩) demoParse).logged = true :=
  (generate_transport_spec demoProvider "p" none (fun _ => ⟨500, "oops"⟩) demoParse).1
    (by decide)

/-- C3 counterexample: with the non-null but empty `response_schema` and a
200 response whose body is not valid JSON, `generate` does not parse and
does not raise a decoding error — it returns the raw text, contradicting
the claim for non-null schemas. -/
theorem generate_schema_counterexample :
    (demoProvider.generate "p" (some []) (fun _ => ⟨200, "not json"⟩) demoParse).result
        = .ok (.text "not json") ∧
    ¬ (demoProvider.generate "p" (some []) (fun _ => ⟨200, "not json"⟩) demoParse).result
        = .error (.decodingError "Expecting value") := by
  refine ⟨rfl, fun h => ?_⟩
  exact Except.noConfusion h

/-- C3 amended: with a truthy (non-null and non-empty) `response_schema`
and a 2xx response, the body is parsed as JSON: the parsed value is
returned when parsing succeeds, and a `DecodingError` wrapping the original
parse failure is raised when it fails. -/
theorem generate_structured_spec (p : LMStudioProvider) (prompt : String)
    (schema : Schema) (server : HttpRequest → HttpResponse)
    (parse : String → Except String Json)
    (hschema : schema ≠ [])
    (h2xx : 200 ≤ (server (p.request prompt)).status ∧
      (server (p.request prompt)).status < 300) :
    (∀ j, parse (server (p.request prompt)).body = .ok j →
      (p.generate prompt (some schema) server parse).result = .ok (.structured j)) ∧
    (∀ e, parse (server (p.request prompt)).body = .error e →
      (p.generate prompt (some schema) server parse).result = .error (.decodingError e)) := by
  have hb : isHttpError (server (p.request prompt)).status = false := by
    rcases Bool.eq_false_or_eq_true (isHttpError (server (p.request prompt)).status) with
      ht | hf
    · have := (isHttpError_iff _).mp ht
      omega
    · exact hf
  have hts : truthySchema (some schema) = true := by
    cases schema with
    | nil => exact absurd rfl hschema
    | cons a l => rfl
  constructor
  · intro j hj
    simp [LMStudioProvider.generate, hb, hts, hj]
  · intro e he
    simp [LMStudioProvider.generate, hb, hts, he]

/-- Witness for the amended C3: a 200 response with the JSON body and a
non-empty schema yields the parsed structured value. -/
theorem generate_structured_spec_witness :
    (demoProvider.generate "hi" (some [("type", "object")])
        (fun _ => ⟨200, "\x7b\"a\": 1\x7d"⟩) demoParse).result
      = .ok (.structured (Json.obj [("a", Json.num 1)])) :=
  (generate_structured_spec demoProvider "hi" [("type", "object")]
      (fun _ => ⟨200, "\x7b\"a\": 1\x7d"⟩) demoParse (by decide) (by decide)).1
    (Json.obj [("a", Json.num 1)]) rfl

/-- C4: with no `response_schema` and a 2xx response, `generate` returns
the raw response body text verbatim. -/
theorem generate_text_spec (p : LMStudioProvider) (prompt : String)
    (server : HttpRequest → HttpResponse) (parse : String → Except String Json)
    (h2xx : 200 ≤ (server (p.request prompt)).status ∧
      (server (p.request prompt)).status < 300) :
    (p.generate prompt none server parse).result
      = .ok (.text (server (p.request prompt)).body) := by
  have hb : isHttpError (server (p.request prompt)).status = false := by
    rcases Bool.eq_false_or_eq_true (isHttpError (server (p.request prompt)).status) with
      ht | hf
    · have := (isHttpError_iff _).mp ht
      omega
    · exact hf
  simp [LMStudioProvider.generate, hb, truthySchema]

/-- Witness for C4: a 200 response with body `"hello"` and no schema
returns the string `"hello"` unchanged. -/
theorem generate_text_spec_witness :
    (demoProvider.generate "p" none (fun _ => ⟨200, "hello"⟩) demoParse).result
      = .ok (.text "hello") :=
  generate_text_spec demoProvider "p" (fun _ => ⟨200, "hello"⟩) demoParse (by decide)

/-- C5: every `generate` call issues exactly one request; that request is a
POST to the configured base address with trailing slashes stripped followed
by `"/generate"`, and its headers include `Content-Type: application/json`
for every adapter. -/
theorem generate_request_spec (p : LMStudioProvider) (prompt : String)
    (schema : Option Schema) (server : HttpRequest → HttpResponse)
    (parse : String → Except String Json) :
    (p.generate prompt schema server parse).requestsSent = [p.request prompt] ∧
    (p.request prompt).method = "POST" ∧
    (p.request prompt).url = rstripSlash p.server_url ++ "/generate" ∧
    ("Content-Type", "application/json") ∈ (p.request prompt).headers := by
  refine ⟨?_, rfl, rfl, ?_⟩
  · unfold LMStudioProvider.generate
    dsimp only
    split
    · rfl
    · split
      · split <;> rfl
      · rfl
  · simp [LMStudioProvider.request, LMStudioProvider.headers]

/-- C6 counterexample: an adapter whose configured `api_key` is the empty
string — the key is configured, not absent — sends no `Authorization`
header at all, contradicting the claim that a configured api key always
produces the header. -/
theorem request_auth_counterexample :
    emptyKeyProvider.api_key = some "" ∧
    (emptyKeyProvider.request "p").headers = [("Content-Type", "application/json")] ∧
    ("Authorization", "Bearer " ++ "") ∉ (emptyKeyProvider.request "p").headers := by
  decide

/-- C6 amended: the request carries `Authorization: Bearer <api_key>` when
the configured api key is present and non-empty, and carries no
`Authorization` header when the api key is absent or the empty string. -/
theorem request_auth_spec (p : LMStudioProvider) (prompt : String) :
    (∀ k, p.api_key = some k → k ≠ "" →
      ("Authorization", "Bearer " ++ k) ∈ (p.request prompt).headers) ∧
    ((p.api_key = none ∨ p.api_key = some "") →
      ∀ v, ("Authorization", v) ∉ (p.request prompt).headers) := by
  constructor
  · intro k hk hne
    simp [LMStudioProvider.request, LMStudioProvider.headers, hk, hne]
  · rintro (h | h) <;> intro v <;>
      simp [LMStudioProvider.request, LMStudioProvider.headers, h]

/-- Witness for the amended C6 at the sample adapter, whose api key is
`"secret"`. -/
theorem request_auth_spec_witness :
    ("Authorization", "Bearer secret") ∈ (demoProvider.request "p").headers :=
  (request_auth_spec demoProvider "p").1 "secret" rfl (by decide)

/-- C7 counterexample: an adapter whose configured `model` is the empty
string — configured, not absent — sends a body containing only the prompt
field, contradicting the claim that a configured model always appears in
the body. -/
theorem request_model_counterexample :
    emptyModelProvider.model = some "" ∧
    (emptyModelProvider.request "hi").jsonBody = [("prompt", "hi")] ∧
    ("model", "") ∉ (emptyModelProvider.request "hi").jsonBody := by
  decide

/-- C7 amended: the JSON body is exactly the prompt field followed by the
model field when the configured model is present and non-empty, and exactly
the prompt field alone when the model is absent or the empty string. -/
theorem request_body_spec (p : LMStudioProvider) (prompt : String) :
    (∀ m, p.model = some m → m ≠ "" →
      (p.request prompt).jsonBody = [("prompt", prompt), ("model", m)]) ∧
    ((p.model = none ∨ p.model = some "") →
      (p.request prompt).jsonBody = [("prompt", prompt)]) := by
  constructor
  · intro m hm hne
    simp [LMStudioProvider.request, LMStudioProvider.payload, hm, hne]
  · rintro (h | h) <;>
      simp [LMStudioProvider.request, LMStudioProvider.payload, h]

/-- Witness for the amended C7 at the sample adapter, whose model is
`"m1"`. -/
theorem request_body_spec_witness :
    (demoProvider.request "hi").jsonBody = [("prompt", "hi"), ("model", "m1")] :=
  (request_body_spec demoProvider "hi").1 "m1" rfl (by decide)

/-- C8: the module-load registration block swallows every outcome of the
registry call — normal return or raised exception alike — so module import
always completes normally. -/
theorem module_registration_total (r : Except String Unit) :
    moduleRegistration r = .ok () := by
  cases r <;> rfl

/-- C9: `generate` writes no adapter state: the adapter after any call is
the one before it, so its stored `server_url`, `model` and `api_key` are
unchanged and repeated calls start from an identical adapter. -/
theorem generate_stateless (p : LMStudioProvider) (prompt : String)
    (schema : Option Schema) (server : HttpRequest → HttpResponse)
    (parse : String → Except String Json) :
    (p.generate prompt schema server parse).self = p ∧
    (p.generate prompt schema server parse).self.server_url = p.server_url ∧
    (p.generate prompt schema server parse).self.model = p.model ∧
    (p.generate prompt schema server parse).self.api_key = p.api_key := by
  have h : (p.generate prompt schema server parse).self = p := by
    unfold LMStudioProvider.generate
    dsimp only
    split
    · rfl
    · split
      · split <;> rfl
      · rfl
  exact ⟨h, by rw [h], by rw [h], by rw [h]⟩

/-- C10: empty-string configuration values behave like absent ones — an
empty `api_key` yields no `Authorization` header and an empty `model`
yields no model field in the body, because the code branches on
truthiness. -/
theorem empty_config_values_spec (p : LMStudioProvider) (prompt : String) :
    (p.api_key = some "" → ∀ v, ("Authorization", v) ∉ (p.request prompt).headers) ∧
    (p.model = some "" → ∀ v, ("model", v) ∉ (p.request prompt).jsonBody) := by
  constructor
  · intro h v
    simp [LMStudioProvider.request, LMStudioProvider.headers, h]
  · intro h v
    simp [LMStudioProvider.request, LMStudioProvider.payload, h]

/-- Witness for C10 at an adapter whose `api_key` and `model` are both the
empty string. -/
theorem empty_config_values_spec_witness :
    ("Authorization", "Bearer ") ∉ (emptyBothProvider.request "p").headers ∧
    ("model", "") ∉ (emptyBothProvider.request "p").jsonBody :=
  ⟨(empty_config_values_spec emptyBothProvider "p").1 rfl "Bearer ",
   (empty_config_values_spec emptyBothProvider "p").2 rfl ""⟩

end LMStudio
